import Mathlib

/-!
Shallow embedding of the shader-party repository (a wgpu/winit shader
rendering app) for checking its natural-language specification.

Modelling conventions:
* Rust `f32`/`f64` values are modelled as exact rationals `ℚ`; rounding is
  not modelled.
* Machine integers (`u32`, `u128`) are modelled as `Nat` with explicit
  `% 2 ^ 32` where the source casts with `as u32`.
* A Rust panic (`.expect`, or a wgpu validation error hitting the default
  uncaptured-error handler, which aborts the process) is modelled as
  `Except.error msg`.
* External collaborators are parameters: the filesystem is a function
  `String → Option String` (`none` = read error), and the wgpu WGSL
  compiler's verdict is a predicate in a `Gpu` record.  GPU resource
  handles (surface, device, queue, buffers, bind groups) are opaque `Nat`
  identifiers: the code never inspects them, only passes them along.
-/

namespace ShaderParty

/-- Config from src/config.rs: the clap-parsed CLI options, one shader path. -/
structure Config where
  path : String
deriving Repr, DecidableEq

/-- Model of winit's PhysicalSize with u32 components. -/
structure PhysicalSize where
  width : Nat
  height : Nat
deriving Repr, DecidableEq

/-- Model of wgpu's Color: four f64 channels, modelled as rationals. -/
structure Color where
  r : ℚ
  g : ℚ
  b : ℚ
  a : ℚ
deriving Repr, DecidableEq

/-- Opaque GPU resource handles; the source never inspects these values. -/
abbrev Surface := Nat

abbrev Device := Nat

abbrev Queue := Nat

abbrev Buffer := Nat

abbrev BindGroup := Nat

abbrev SurfaceTexture := Nat

abbrev TextureFormat := Nat

/-- Opaque handle identity of a wgpu PipelineLayout. -/
structure PipelineLayout where
  id : Nat
deriving Repr, DecidableEq

/-- Model of wgpu's SurfaceConfiguration as built in State::new:
usage RENDER_ATTACHMENT, the adapter-preferred format, the window size,
and PresentMode::Fifo. -/
structure SurfaceConfiguration where
  usage_render_attachment : Bool
  format : TextureFormat
  width : Nat
  height : Nat
  present_mode_fifo : Bool
deriving Repr, DecidableEq

/-- A compiled wgpu ShaderModule: its label and the WGSL source it was
compiled from. -/
structure ShaderModule where
  label : String
  source : String
deriving Repr, DecidableEq

/-- Model of wgpu's VertexState as filled in by new_pipeline. -/
structure VertexStageState where
  module : ShaderModule
  entry_point : String
deriving Repr, DecidableEq

/-- One ColorTargetState of the fragment stage: surface-matching format,
BlendState::REPLACE, ColorWrites::ALL. -/
structure ColorTargetState where
  format : TextureFormat
  blend_replace : Bool
  write_mask_all : Bool
deriving Repr, DecidableEq

/-- Model of wgpu's FragmentState as filled in by new_pipeline. -/
structure FragmentStageState where
  module : ShaderModule
  entry_point : String
  targets : List ColorTargetState
deriving Repr, DecidableEq

/-- Fixed-function primitive state of the pipeline descriptor. -/
structure PrimitiveStageState where
  topology_triangle_list : Bool
  front_face_ccw : Bool
  cull_back : Bool
  polygon_fill : Bool
  unclipped_depth : Bool
  conservative : Bool
deriving Repr, DecidableEq

/-- Multisample state of the pipeline descriptor. -/
structure MultisampleStageState where
  count : Nat
  alpha_to_coverage_enabled : Bool
deriving Repr, DecidableEq

/-- A wgpu RenderPipeline as described by the descriptor new_pipeline
builds: label, layout, the two shader stages and the fixed-function
state. -/
structure RenderPipeline where
  label : String
  layout : PipelineLayout
  vertex : VertexStageState
  fragment : FragmentStageState
  primitive : PrimitiveStageState
  multisample : MultisampleStageState
deriving Repr, DecidableEq

/-- TimeUniform from src/shader/uniforms.rs: one u32 field. -/
structure TimeUniform where
  time : Nat
deriving Repr, DecidableEq

/-- TimeUniform::update_time: `self.time = start_time.elapsed().as_millis() as u32`.
The wall clock is external input, so elapsed milliseconds (the u128 value
of `as_millis`, modelled as `Nat`) is passed in; the `as u32` cast
truncates it modulo `2 ^ 32`. -/
def TimeUniform.update_time (_self : TimeUniform) (elapsed_ms : Nat) : TimeUniform :=
  { time := elapsed_ms % 2 ^ 32 }

/-- MouseUniform from src/shader/uniforms.rs: a `[f32; 2]` cursor position. -/
structure MouseUniform where
  cursor_pos : ℚ × ℚ
deriving Repr, DecidableEq

/-- MouseUniform::new: cursor at the origin. -/
def MouseUniform.new : MouseUniform :=
  { cursor_pos := (0, 0) }

/-- MouseUniform::update_position: stores `[x, 1.0 - y]`, flipping the
y axis to match GPU coordinates. -/
def MouseUniform.update_position (self : MouseUniform) (x y : ℚ) : MouseUniform :=
  { self with cursor_pos := (x, 1 - y) }

/-- UniformBinding from src/shader/uniforms/bindings.rs: a uniform value
together with its GPU buffer and bind group handles. -/
structure UniformBinding (T : Type) where
  uniform : T
  buffer : Buffer
  bind_group : BindGroup
deriving Repr, DecidableEq

/-- The filesystem as seen by `fs::read_to_string`: contents per path,
`none` meaning the read fails. -/
def FileSystem := String → Option String

/-- External wgpu collaborator: the WGSL compiler's verdict on a source
text (true = the module validates). -/
structure Gpu where
  wgslValid : String → Bool

/-- Device::create_shader_module with label "Shader": on a WGSL
validation error wgpu routes the error to the default uncaptured-error
handler, which panics, so failure is an `Except.error`. -/
def create_shader_module (gpu : Gpu) (label : String) (shader_source : String) :
    Except String ShaderModule :=
  if gpu.wgslValid shader_source then .ok { label := label, source := shader_source }
  else .error "wgpu validation error: shader module failed to compile"

/-- new_shader from src/shader/mod.rs: reads the file at `path` with
`fs::read_to_string(path).expect("Failed reading shader")` (panic on read
failure) and compiles it with create_shader_module. -/
def new_shader (gpu : Gpu) (_device : Device) (fs : FileSystem) (path : String) :
    Except String ShaderModule :=
  match fs path with
  | none => .error "Failed reading shader"
  | some shader_source => create_shader_module gpu "Shader" shader_source

/-- new_pipeline from src/shader/mod.rs: builds the RenderPipelineDescriptor
with label "Render Pipeline", the given layout, vertex entry "vs_main",
fragment entry "fs_main" targeting the surface format with REPLACE
blending, triangle-list topology, ccw front faces, back-face culling,
fill polygon mode, and single-sample multisampling. -/
def new_pipeline (_device : Device) (surface_config : SurfaceConfiguration)
    (render_pipeline_layout : PipelineLayout) (shader : ShaderModule) : RenderPipeline :=
  { label := "Render Pipeline"
    layout := render_pipeline_layout
    vertex := { module := shader, entry_point := "vs_main" }
    fragment :=
      { module := shader
        entry_point := "fs_main"
        targets := [{ format := surface_config.format
                      blend_replace := true
                      write_mask_all := true }] }
    primitive :=
      { topology_triangle_list := true
        front_face_ccw := true
        cull_back := true
        polygon_fill := true
        unclipped_depth := false
        conservative := false }
    multisample := { count := 1, alpha_to_coverage_enabled := false } }

/-- State from src/shader/mod.rs: the aggregate render state.  `start_time`
models the `Instant` captured at startup as milliseconds on an external
monotone wall clock. -/
structure State where
  surface : Surface
  device : Device
  queue : Queue
  size : PhysicalSize
  surface_config : SurfaceConfiguration
  render_pipeline : RenderPipeline
  render_pipeline_layout : PipelineLayout
  vertex_buffer : Buffer
  index_buffer : Buffer
  num_indices : Nat
  background_colour : Color
  start_time : Nat
  time : UniformBinding TimeUniform
  mouse : UniformBinding MouseUniform
  config : Config
deriving Repr, DecidableEq

/-- State::refresh_shader: rebuilds the pipeline from a fresh read of
`self.config.path`, with the existing device, surface config and pipeline
layout, and assigns it to `self.render_pipeline`.  A panic inside
new_shader (read or compile failure) propagates as `Except.error`. -/
def State.refresh_shader (gpu : Gpu) (fs : FileSystem) (s : State) : Except String State :=
  (new_shader gpu s.device fs s.config.path).map fun shader =>
    { s with render_pipeline :=
        new_pipeline s.device s.surface_config s.render_pipeline_layout shader }

/-- State::resize: only when both dimensions are positive, store the new
size, update the surface config's width and height, and call
`surface.configure` once.  The returned `Nat` counts the
`surface.configure` calls performed. -/
def State.resize (s : State) (new_size : PhysicalSize) : State × Nat :=
  if 0 < new_size.width ∧ 0 < new_size.height then
    ({ s with
        size := new_size
        surface_config :=
          { s.surface_config with width := new_size.width, height := new_size.height } }, 1)
  else (s, 0)

/-- The winit WindowEvent kinds the event loop can deliver; `other` stands
for every further variant, all of which hit the `_ => false` arm of
State::input. -/
inductive WindowEvent where
  | cursorMoved (x y : ℚ)
  | resized (new_size : PhysicalSize)
  | closeRequested
  | keyboardInput (pressed : Bool) (key : Nat)
  | scaleFactorChanged (new_inner_size : PhysicalSize)
  | cursorEntered
  | cursorLeft
  | mouseInput (pressed : Bool) (button : Nat)
  | other
deriving Repr, DecidableEq

/-- State::input: on CursorMoved, update the mouse uniform with the
normalized position (the f64 divisions and the f32 casts are exact here)
and set the background red and green channels to the raw ratios; every
other event returns false and changes nothing.  The returned Bool is the
"event fully processed" flag. -/
def State.input (s : State) (event : WindowEvent) : State × Bool :=
  match event with
  | .cursorMoved x y =>
      ({ s with
          mouse :=
            { s.mouse with
                uniform := s.mouse.uniform.update_position
                  (x / (s.size.width : ℚ)) (y / (s.size.height : ℚ)) }
          background_colour :=
            { s.background_colour with
                r := x / (s.size.width : ℚ)
                g := y / (s.size.height : ℚ) } }, true)
  | _ => (s, false)

/-- Payload of a queue.write_buffer call issued by State::update. -/
inductive UniformData where
  | time (u : TimeUniform)
  | mouse (u : MouseUniform)
deriving Repr, DecidableEq

/-- One queue.write_buffer call: target buffer, offset, and the uniform
bytes written. -/
structure BufferWrite where
  buffer : Buffer
  offset : Nat
  data : UniformData
deriving Repr, DecidableEq

/-- State::update: recompute the time uniform from
`self.start_time.elapsed()` (here `now_ms - start_time` on the external
clock) and write both uniforms to their GPU buffers. -/
def State.update (s : State) (now_ms : Nat) : State × List BufferWrite :=
  let s1 : State :=
    { s with time :=
        { s.time with uniform := s.time.uniform.update_time (now_ms - s.start_time) } }
  (s1,
    [{ buffer := s1.time.buffer, offset := 0, data := .time s1.time.uniform },
     { buffer := s1.mouse.buffer, offset := 0, data := .mouse s1.mouse.uniform }])

/-- wgpu's SurfaceError variants relevant to get_current_texture. -/
inductive SurfaceError where
  | timeout
  | outdated
  | lost
  | outOfMemory
deriving Repr, DecidableEq

/-- The one frame State::render records and submits when surface
acquisition succeeds: clear to the background colour, bind the current
pipeline and the two uniform bind groups, set the quad buffers and issue
one indexed draw. -/
structure Frame where
  clear_color : Color
  pipeline : RenderPipeline
  bind_groups : List BindGroup
  vertex_buffer : Buffer
  index_buffer : Buffer
  num_indices : Nat
  output : SurfaceTexture
deriving Repr, DecidableEq

/-- State::render: `self.surface.get_current_texture()?` propagates any
SurfaceError (the acquisition outcome is external input); on success the
recorded frame uses the current pipeline, bind groups, buffers and
background colour. -/
def State.render (s : State) (acquired : Except SurfaceError SurfaceTexture) :
    Except SurfaceError Frame :=
  match acquired with
  | .error e => .error e
  | .ok output =>
      .ok { clear_color := s.background_colour
            pipeline := s.render_pipeline
            bind_groups := [s.time.bind_group, s.mouse.bind_group]
            vertex_buffer := s.vertex_buffer
            index_buffer := s.index_buffer
            num_indices := s.num_indices
            output := output }

/-- winit control flow: the event loop either keeps polling or exits. -/
inductive ControlFlow where
  | poll
  | exitLoop
deriving Repr, DecidableEq

/-- Outcome of one RedrawRequested arm: resulting state, control flow,
the presented frame if any, how many surface.configure calls happened,
and the error printed with eprintln if any. -/
structure RedrawOutcome where
  state : State
  control_flow : ControlFlow
  frame : Option Frame
  configure_calls : Nat
  logged : Option SurfaceError
deriving Repr, DecidableEq

/-- The Event::RedrawRequested arm of the event loop in src/main.rs:
`state.update()` then match on `state.render()`; Ok does nothing more,
Lost calls `state.resize(state.size)`, OutOfMemory sets
`ControlFlow::Exit`, and any other error is printed with eprintln. -/
def handle_redraw (s : State) (now_ms : Nat)
    (acquired : Except SurfaceError SurfaceTexture) : RedrawOutcome :=
  let s1 := (s.update now_ms).1
  match s1.render acquired with
  | .ok frame =>
      { state := s1, control_flow := .poll, frame := some frame
        configure_calls := 0, logged := none }
  | .error .lost =>
      let r := s1.resize s1.size
      { state := r.1, control_flow := .poll, frame := none
        configure_calls := r.2, logged := none }
  | .error .outOfMemory =>
      { state := s1, control_flow := .exitLoop, frame := none
        configure_calls := 0, logged := none }
  | .error e =>
      { state := s1, control_flow := .poll, frame := none
        configure_calls := 0, logged := some e }

/-! Concrete fixtures used to evaluate the definitions on explicit inputs. -/

/-- A concrete WGSL source text used as file contents in fixtures. -/
def constShaderSource : String :=
  "fn vs_main() {} fn fs_main() {}"

/-- A filesystem on which every read succeeds with constShaderSource. -/
def constFs : FileSystem := fun _ => some constShaderSource

/-- A filesystem on which every read fails. -/
def emptyFs : FileSystem := fun _ => none

/-- A GPU whose WGSL compiler accepts every source. -/
def okGpu : Gpu := { wgslValid := fun _ => true }

/-- A GPU whose WGSL compiler rejects every source. -/
def rejectGpu : Gpu := { wgslValid := fun _ => false }

/-- The shader module the startup pipeline of the fixture state was built
from. -/
def startShaderModule : ShaderModule :=
  { label := "Shader", source := "fn vs_main() {} fn fs_main() { old }" }

/-- Pipeline layout handle of the fixture state. -/
def testLayout : PipelineLayout := { id := 17 }

/-- Surface configuration of the fixture state: an 800 by 600 window. -/
def testSurfaceConfig : SurfaceConfiguration :=
  { usage_render_attachment := true
    format := 3
    width := 800
    height := 600
    present_mode_fifo := true }

/-- A concrete render state as State::new would build it for an 800 by 600
window, with the default bluish background colour. -/
def testState : State :=
  { surface := 0
    device := 1
    queue := 2
    size := { width := 800, height := 600 }
    surface_config := testSurfaceConfig
    render_pipeline := new_pipeline 1 testSurfaceConfig testLayout startShaderModule
    render_pipeline_layout := testLayout
    vertex_buffer := 4
    index_buffer := 5
    num_indices := 6
    background_colour := { r := 1 / 10, g := 1 / 5, b := 3 / 10, a := 1 }
    start_time := 0
    time := { uniform := { time := 0 }, buffer := 6, bind_group := 7 }
    mouse := { uniform := MouseUniform.new, buffer := 8, bind_group := 9 }
    config := { path := "./shaders/shader.wgsl" } }

/-- The fixture state after a successful reload from constFs. -/
def refreshedTestState : State :=
  { testState with
      render_pipeline :=
        new_pipeline testState.device testState.surface_config
          testState.render_pipeline_layout
          { label := "Shader", source := constShaderSource } }

/-! Claims. -/

/-- C4: for every cursor-move event at (x, y) in a window of size
(width, height), after input handling the mouse uniform's stored
coordinates equal (x/width, 1 - y/height) — y-flipped — and the
background clear colour's red channel equals x/width and green channel
equals y/height.  (Arithmetic is exact rational; the positivity
hypotheses keep the divisions meaningful.) -/
theorem C4_cursor_move_updates_mouse_and_background (s : State) (x y : ℚ)
    (_hw : 0 < s.size.width) (_hh : 0 < s.size.height) :
    (s.input (.cursorMoved x y)).1.mouse.uniform.cursor_pos =
      (x / (s.size.width : ℚ), 1 - y / (s.size.height : ℚ)) ∧
    (s.input (.cursorMoved x y)).1.background_colour.r = x / (s.size.width : ℚ) ∧
    (s.input (.cursorMoved x y)).1.background_colour.g = y / (s.size.height : ℚ) := by
  refine ⟨?_, rfl, rfl⟩
  simp [State.input, MouseUniform.update_position]

/-- Witness for C4 at the 800 by 600 fixture state and cursor (400, 150). -/
theorem C4_witness :
    (testState.input (.cursorMoved 400 150)).1.mouse.uniform.cursor_pos =
      (400 / (testState.size.width : ℚ), 1 - 150 / (testState.size.height : ℚ)) ∧
    (testState.input (.cursorMoved 400 150)).1.background_colour.r =
      400 / (testState.size.width : ℚ) ∧
    (testState.input (.cursorMoved 400 150)).1.background_colour.g =
      150 / (testState.size.height : ℚ) :=
  C4_cursor_move_updates_mouse_and_background testState 400 150 (by decide) (by decide)

/-- C5: a resize event with width = 0 or height = 0 leaves the stored size
and surface configuration unchanged and performs no surface.configure
call; a resize with both dimensions positive updates the stored size and
the surface configuration's width and height and calls surface.configure
exactly once. -/
theorem C5_resize_zero_guard (s : State) (new_size : PhysicalSize) :
    ((new_size.width = 0 ∨ new_size.height = 0) → s.resize new_size = (s, 0)) ∧
    (0 < new_size.width ∧ 0 < new_size.height →
      (s.resize new_size).2 = 1 ∧
      (s.resize new_size).1 =
        { s with
            size := new_size
            surface_config :=
              { s.surface_config with
                  width := new_size.width, height := new_size.height } }) := by
  constructor
  · intro h
    have : ¬(0 < new_size.width ∧ 0 < new_size.height) := by
      rcases h with h | h <;> omega
    simp [State.resize, this]
  · intro h
    simp [State.resize, h]

/-- Witness for C5: a zero-width resize is a no-op, a 1024 by 768 resize
reconfigures once and stores the new size. -/
theorem C5_witness :
    testState.resize { width := 0, height := 50 } = (testState, 0) ∧
    (testState.resize { width := 1024, height := 768 }).2 = 1 ∧
    (testState.resize { width := 1024, height := 768 }).1.size =
      { width := 1024, height := 768 } := by
  have h0 := (C5_resize_zero_guard testState { width := 0, height := 50 }).1 (Or.inl rfl)
  have h1 := (C5_resize_zero_guard testState { width := 1024, height := 768 }).2
    ⟨by decide, by decide⟩
  exact ⟨h0, h1.1, by rw [h1.2]⟩

/-- C9: every update stores the elapsed milliseconds since process start
reduced modulo 2 ^ 32 (the `as u32` cast truncates the u128 count), so
once elapsed time reaches 2 ^ 32 ms the stored counter is strictly
smaller than the true elapsed time (it has wrapped). -/
theorem C9_time_truncates_mod_two_pow_32 (s : State) (now_ms : Nat) :
    (s.update now_ms).1.time.uniform.time = (now_ms - s.start_time) % 2 ^ 32 ∧
    (s.update now_ms).1.time.uniform.time < 2 ^ 32 ∧
    (2 ^ 32 ≤ now_ms - s.start_time →
      (s.update now_ms).1.time.uniform.time < now_ms - s.start_time) := by
  refine ⟨rfl, Nat.mod_lt _ (by norm_num), fun h => ?_⟩
  calc (s.update now_ms).1.time.uniform.time < 2 ^ 32 := Nat.mod_lt _ (by norm_num)
    _ ≤ now_ms - s.start_time := h

/-- Witness for C9 at elapsed time 2 ^ 32 + 5 ms: the stored value is 5,
strictly below the true elapsed count. -/
theorem C9_witness :
    (testState.update (2 ^ 32 + 5)).1.time.uniform.time = (2 ^ 32 + 5 - 0) % 2 ^ 32 ∧
    (testState.update (2 ^ 32 + 5)).1.time.uniform.time < 2 ^ 32 + 5 - 0 := by
  have h := C9_time_truncates_mod_two_pow_32 testState (2 ^ 32 + 5)
  exact ⟨h.1, h.2.2 (by decide)⟩

/-- C10: State::input returns true exactly on cursor-move events, and on
every event where it returns false the render state is unchanged. -/
theorem C10_input_true_iff_cursor_moved (s : State) (event : WindowEvent) :
    ((s.input event).2 = true ↔ ∃ x y, event = WindowEvent.cursorMoved x y) ∧
    ((s.input event).2 = false → (s.input event).1 = s) := by
  cases event <;> simp [State.input]

/-- Witness for C10: a close-request returns false and leaves the fixture
state unchanged, while a cursor move returns true. -/
theorem C10_witness :
    (testState.input WindowEvent.closeRequested).2 = false ∧
    (testState.input WindowEvent.closeRequested).1 = testState ∧
    (testState.input (.cursorMoved 1 2)).2 = true := by
  have h1 := C10_input_true_iff_cursor_moved testState WindowEvent.closeRequested
  have h2 := C10_input_true_iff_cursor_moved testState (.cursorMoved 1 2)
  have hf : (testState.input WindowEvent.closeRequested).2 = false := rfl
  exact ⟨hf, h1.2 hf, h2.1.mpr ⟨1, 2, rfl⟩⟩

/-- C6 counterexample: within a single run, consecutive updates at
elapsed times 2 ^ 32 - 1 ms and 2 ^ 32 ms (wall clock non-decreasing)
store 4294967295 and then 0 — the later stored value is strictly smaller
than the earlier one, so the stored u32 counter is not monotonically
non-decreasing. -/
theorem C6_counterexample :
    (2 ^ 32 - 1 : Nat) ≤ 2 ^ 32 ∧
    ((testState.update (2 ^ 32 - 1)).1.update (2 ^ 32)).1.time.uniform.time <
      (testState.update (2 ^ 32 - 1)).1.time.uniform.time := by
  constructor <;> decide

/-- C6 amended: across consecutive updates with non-decreasing wall-clock
times, the stored time value is non-decreasing provided the later elapsed
time has not yet reached 2 ^ 32 milliseconds (about 49.7 days); at that
point the `as u32` cast wraps and the stored value decreases. -/
theorem C6_time_monotone_before_wrap (s : State) (n1 n2 : Nat) (h12 : n1 ≤ n2)
    (hbound : n2 - s.start_time < 2 ^ 32) :
    (s.update n1).1.time.uniform.time ≤ ((s.update n1).1.update n2).1.time.uniform.time := by
  show (n1 - s.start_time) % 2 ^ 32 ≤ (n2 - s.start_time) % 2 ^ 32
  have h1 : n1 - s.start_time < 2 ^ 32 :=
    lt_of_le_of_lt (Nat.sub_le_sub_right h12 _) hbound
  rw [Nat.mod_eq_of_lt h1, Nat.mod_eq_of_lt hbound]
  exact Nat.sub_le_sub_right h12 _

/-- Witness for the amended C6 at elapsed times 1000 ms and 2500 ms. -/
theorem C6_witness :
    (testState.update 1000).1.time.uniform.time ≤
      ((testState.update 1000).1.update 2500).1.time.uniform.time :=
  C6_time_monotone_before_wrap testState 1000 2500 (by decide) (by decide)

/-- C1 counterexample: with a filesystem on which the shader read fails,
refresh_shader does not return with the old pipeline intact — it panics
with "Failed reading shader" (the `.expect` in new_shader), which aborts
the process, so the failure is fatal and nothing continues rendering. -/
theorem C1_counterexample :
    emptyFs testState.config.path = none ∧
    State.refresh_shader okGpu emptyFs testState = .error "Failed reading shader" :=
  ⟨rfl, rfl⟩

/-- C1 amended: any read or compile failure during refresh_shader panics
and is therefore fatal to the process (a read failure via the `.expect`
with message "Failed reading shader", a compile failure via wgpu's
default uncaptured-error handler); the pipeline field is never assigned
on a failed reload, but no pipeline survives because the process aborts
rather than logging and continuing. -/
theorem C1_refresh_failure_panics (gpu : Gpu) (fs : FileSystem) (s : State)
    (h : fs s.config.path = none ∨
      ∃ src, fs s.config.path = some src ∧ gpu.wgslValid src = false) :
    ∃ msg, State.refresh_shader gpu fs s = Except.error msg := by
  rcases h with h | ⟨src, hsrc, hbad⟩
  · exact ⟨"Failed reading shader", by
      simp [State.refresh_shader, new_shader, h, Except.map]⟩
  · exact ⟨"wgpu validation error: shader module failed to compile", by
      simp [State.refresh_shader, new_shader, create_shader_module, hsrc, hbad,
        Except.map]⟩

/-- Witness for the amended C1: a failing read on the fixture state makes
refresh_shader abort with a panic message. -/
theorem C1_witness :
    ∃ msg, State.refresh_shader okGpu emptyFs testState = Except.error msg :=
  C1_refresh_failure_panics okGpu emptyFs testState (Or.inl rfl)

/-- C2: refresh_shader reads the shader source from config.path at the
moment of the reload — its result depends only on the current filesystem
contents at that path, and the compiled module's source is exactly what
the file holds now — and the rebuilt pipeline uses the render state's
existing pipeline layout and the surface configuration's format. -/
theorem C2_reload_reads_current_path_reuses_layout_and_format (gpu : Gpu)
    (fs fs2 : FileSystem) (s s2 : State)
    (hfs : fs2 s.config.path = fs s.config.path)
    (hok : State.refresh_shader gpu fs s = .ok s2) :
    State.refresh_shader gpu fs2 s = .ok s2 ∧
    s2.render_pipeline.layout = s.render_pipeline_layout ∧
    s2.render_pipeline.fragment.targets.map ColorTargetState.format =
      [s.surface_config.format] ∧
    fs s.config.path = some s2.render_pipeline.vertex.module.source := by
  unfold State.refresh_shader new_shader at hok ⊢
  rw [hfs]
  cases hread : fs s.config.path with
  | none => rw [hread] at hok; exact absurd hok (by simp [Except.map])
  | some src =>
      rw [hread] at hok
      unfold create_shader_module at hok ⊢
      by_cases hv : gpu.wgslValid src
      · simp only [hv, if_true, Except.map] at hok ⊢
        cases hok
        exact ⟨rfl, rfl, rfl, rfl⟩
      · simp [hv, Except.map] at hok

/-- Witness for C2: reloading the fixture state from constFs succeeds and
yields a pipeline built against the old layout and surface format, from
the file's current contents. -/
theorem C2_witness :
    State.refresh_shader okGpu constFs testState = .ok refreshedTestState ∧
    refreshedTestState.render_pipeline.layout = testState.render_pipeline_layout ∧
    refreshedTestState.render_pipeline.fragment.targets.map ColorTargetState.format =
      [testState.surface_config.format] ∧
    constFs testState.config.path =
      some refreshedTestState.render_pipeline.vertex.module.source :=
  C2_reload_reads_current_path_reuses_layout_and_format okGpu constFs constFs
    testState refreshedTestState rfl rfl

/-- C3: on every successful reload the new state agrees with the old on
every field except render_pipeline, the new pipeline is exactly the one
new_pipeline builds from the freshly read and compiled shader, and a
subsequent draw (render with a successfully acquired surface texture)
records a frame using the new pipeline — hence its shader stages. -/
theorem C3_reload_success_swaps_only_pipeline (gpu : Gpu) (fs : FileSystem)
    (s s2 : State) (hok : State.refresh_shader gpu fs s = .ok s2) :
    s2 = { s with render_pipeline := s2.render_pipeline } ∧
    (∃ src, fs s.config.path = some src ∧ gpu.wgslValid src = true ∧
      s2.render_pipeline =
        new_pipeline s.device s.surface_config s.render_pipeline_layout
          { label := "Shader", source := src }) ∧
    (∀ tex : SurfaceTexture,
      (s2.render (.ok tex)).map Frame.pipeline = .ok s2.render_pipeline) := by
  refine ⟨?_, ?_, fun tex => rfl⟩
  · unfold State.refresh_shader new_shader at hok
    cases hread : fs s.config.path with
    | none => rw [hread] at hok; exact absurd hok (by simp [Except.map])
    | some src =>
        rw [hread] at hok
        unfold create_shader_module at hok
        by_cases hv : gpu.wgslValid src
        · simp only [hv, if_true, Except.map] at hok
          cases hok
          rfl
        · simp [hv, Except.map] at hok
  · unfold State.refresh_shader new_shader at hok
    cases hread : fs s.config.path with
    | none => rw [hread] at hok; exact absurd hok (by simp [Except.map])
    | some src =>
        rw [hread] at hok
        unfold create_shader_module at hok
        by_cases hv : gpu.wgslValid src
        · simp only [hv, if_true, Except.map] at hok
          cases hok
          exact ⟨src, rfl, hv, rfl⟩
        · simp [hv, Except.map] at hok

/-- Witness for C3: the successful fixture reload changes only the
pipeline field, and rendering afterwards uses the new pipeline. -/
theorem C3_witness :
    refreshedTestState =
      { testState with render_pipeline := refreshedTestState.render_pipeline } ∧
    (refreshedTestState.render (.ok 42)).map Frame.pipeline =
      .ok refreshedTestState.render_pipeline := by
  have h := C3_reload_success_swaps_only_pipeline okGpu constFs testState
    refreshedTestState rfl
  exact ⟨h.1, h.2.2 42⟩

/-- C7: in the RedrawRequested arm, a Lost surface error reconfigures the
surface once using the last known stored size and skips the frame without
exiting or printing; OutOfMemory exits the event loop; any other error
(Outdated, Timeout) is only printed and the state is left as the update
phase produced it, so the next redraw is the retry.  No case presents a
frame. -/
theorem C7_redraw_surface_error_policy (s : State) (now_ms : Nat)
    (acquired : Except SurfaceError SurfaceTexture)
    (hw : 0 < s.size.width) (hh : 0 < s.size.height) :
    (acquired = .error .lost →
      (handle_redraw s now_ms acquired).frame = none ∧
      (handle_redraw s now_ms acquired).control_flow = .poll ∧
      (handle_redraw s now_ms acquired).configure_calls = 1 ∧
      (handle_redraw s now_ms acquired).state.surface_config.width = s.size.width ∧
      (handle_redraw s now_ms acquired).state.surface_config.height = s.size.height ∧
      (handle_redraw s now_ms acquired).logged = none) ∧
    (acquired = .error .outOfMemory →
      (handle_redraw s now_ms acquired).control_flow = .exitLoop ∧
      (handle_redraw s now_ms acquired).frame = none ∧
      (handle_redraw s now_ms acquired).configure_calls = 0 ∧
      (handle_redraw s now_ms acquired).logged = none) ∧
    (∀ e, (e = SurfaceError.outdated ∨ e = SurfaceError.timeout) →
      acquired = .error e →
      (handle_redraw s now_ms acquired).control_flow = .poll ∧
      (handle_redraw s now_ms acquired).frame = none ∧
      (handle_redraw s now_ms acquired).configure_calls = 0 ∧
      (handle_redraw s now_ms acquired).state = (s.update now_ms).1 ∧
      (handle_redraw s now_ms acquired).logged = some e) := by
  have hsz : (s.update now_ms).1.size = s.size := rfl
  refine ⟨fun hacq => ?_, fun hacq => ?_, fun e he hacq => ?_⟩
  · subst hacq
    have hpos : 0 < (s.update now_ms).1.size.width ∧
        0 < (s.update now_ms).1.size.height := by rw [hsz]; exact ⟨hw, hh⟩
    simp only [handle_redraw, State.render, State.resize, hpos.1, hpos.2,
      and_self, if_true]
    exact ⟨trivial, trivial, trivial, rfl, rfl, trivial⟩
  · subst hacq
    exact ⟨rfl, rfl, rfl, rfl⟩
  · subst hacq
    rcases he with he | he <;> subst he <;> exact ⟨rfl, rfl, rfl, rfl, rfl⟩

/-- Witness for C7 at the fixture state: Lost reconfigures once, OOM
exits, Timeout is only logged. -/
theorem C7_witness :
    (handle_redraw testState 5 (.error .lost)).configure_calls = 1 ∧
    (handle_redraw testState 5 (.error .lost)).frame = none ∧
    (handle_redraw testState 5 (.error .outOfMemory)).control_flow = .exitLoop ∧
    (handle_redraw testState 5 (.error .timeout)).logged = some .timeout := by
  have h1 := C7_redraw_surface_error_policy testState 5 (.error .lost)
    (by decide) (by decide)
  have h2 := C7_redraw_surface_error_policy testState 5 (.error .outOfMemory)
    (by decide) (by decide)
  have h3 := C7_redraw_surface_error_policy testState 5 (.error .timeout)
    (by decide) (by decide)
  exact ⟨(h1.1 rfl).2.2.1, (h1.1 rfl).1, (h2.2.1 rfl).1,
    (h3.2.2 SurfaceError.timeout (Or.inr rfl) rfl).2.2.2.2⟩

/-- C8: the stored mouse coordinates and background red/green channels
are the raw ratios x/width and y/height with no clamping, so a cursor
position outside the window bounds drives them outside [0, 1]: x beyond
the width makes the stored x-ratio and red channel exceed 1, and y beyond
the height makes the y-flipped stored coordinate negative and the green
channel exceed 1. -/
theorem C8_cursor_ratios_unclamped (s : State) (x y : ℚ)
    (hw : 0 < s.size.width) (hh : 0 < s.size.height) :
    ((s.input (.cursorMoved x y)).1.mouse.uniform.cursor_pos =
      (x / (s.size.width : ℚ), 1 - y / (s.size.height : ℚ)) ∧
     (s.input (.cursorMoved x y)).1.background_colour.r = x / (s.size.width : ℚ) ∧
     (s.input (.cursorMoved x y)).1.background_colour.g = y / (s.size.height : ℚ)) ∧
    ((s.size.width : ℚ) < x →
      1 < (s.input (.cursorMoved x y)).1.mouse.uniform.cursor_pos.1 ∧
      1 < (s.input (.cursorMoved x y)).1.background_colour.r) ∧
    ((s.size.height : ℚ) < y →
      (s.input (.cursorMoved x y)).1.mouse.uniform.cursor_pos.2 < 0 ∧
      1 < (s.input (.cursorMoved x y)).1.background_colour.g) := by
  have hwq : (0 : ℚ) < (s.size.width : ℚ) := by exact_mod_cast hw
  have hhq : (0 : ℚ) < (s.size.height : ℚ) := by exact_mod_cast hh
  refine ⟨⟨by simp [State.input, MouseUniform.update_position], rfl, rfl⟩,
    fun hx => ⟨?_, ?_⟩, fun hy => ⟨?_, ?_⟩⟩
  · show 1 < x / (s.size.width : ℚ)
    exact (one_lt_div hwq).mpr hx
  · show 1 < x / (s.size.width : ℚ)
    exact (one_lt_div hwq).mpr hx
  · show 1 - y / (s.size.height : ℚ) < 0
    have : 1 < y / (s.size.height : ℚ) := (one_lt_div hhq).mpr hy
    linarith
  · show 1 < y / (s.size.height : ℚ)
    exact (one_lt_div hhq).mpr hy

/-- Witness for C8 at the 800 by 600 fixture and cursor (1600, 1200): the
stored x-ratio and red channel are 2, the stored y-coordinate is -1, the
green channel is 2 — all outside [0, 1]. -/
theorem C8_witness :
    1 < (testState.input (.cursorMoved 1600 1200)).1.mouse.uniform.cursor_pos.1 ∧
    (testState.input (.cursorMoved 1600 1200)).1.mouse.uniform.cursor_pos.2 < 0 ∧
    1 < (testState.input (.cursorMoved 1600 1200)).1.background_colour.r ∧
    1 < (testState.input (.cursorMoved 1600 1200)).1.background_colour.g := by
  have h := C8_cursor_ratios_unclamped testState 1600 1200 (by decide) (by decide)
  refine ⟨(h.2.1 (by decide)).1, (h.2.2 (by decide)).1,
    (h.2.1 (by decide)).2, (h.2.2 (by decide)).2⟩

end ShaderParty
